import Mathlib

/-!
Shallow embedding of the repair-shop dashboard logic in src/app/page.jsx.
Numeric values are modelled as rationals, booking statuses as strings
(the store is schemaless, so a stored status is an arbitrary string).
Presentation-only fields (toast markup, icons, React ids, timestamps)
are elided; every definition below mirrors a named function or constant
of the source file.
-/

namespace DigitalCafe

/-- Closed status vocabulary, in board display order (page.jsx line 713). -/
def statusOrder : List String :=
  ["New Request", "Confirmed", "In Progress", "Awaiting Parts", "Testing",
   "Ready for Collection", "Collected", "Unable To Repair"]

/-- One part entry of the internal repair form (name and cost price). -/
structure Part where
  name : String
  cost : ℚ
deriving DecidableEq, Repr

/-- Repair details captured by the internal repair form modal. -/
structure RepairDetails where
  finalFault : String
  diagnosticNotes : String
  technician : String
  partsUsed : List Part
  finalStatus : String
  laborCost : ℚ
deriving DecidableEq, Repr

/-- Booking/repair-job document. Fields not used by any claim
(consultant, comments, timestamps, document id) are elided. -/
structure Booking where
  invoiceNo : String
  customerName : String
  customerPhone : String
  deviceModel : String
  deviceIssue : String
  imei : String
  status : String
  bookingType : String
  repairDetails : Option RepairDetails
deriving DecidableEq, Repr

/-! ### Grouping (groupedBookings, page.jsx lines 751-770) -/

/-- Bucket of one board column: the code pushes a booking into
groups[booking.status] exactly when that key exists, i.e. when the
status is one of the statusOrder keys; so for a status s in statusOrder
the bucket holds the bookings whose status equals s, in list order. -/
def bucketFor (bookings : List Booking) (s : String) : List Booking :=
  bookings.filter (fun b => b.status == s)

/-- The eight per-status buckets keyed by the closed status set. -/
def groupedBuckets (bookings : List Booking) : List (String × List Booking) :=
  statusOrder.map (fun s => (s, bucketFor bookings s))

/-- The synthetic Total Repairs count: the code uses bookings.length. -/
def totalRepairsCount (bookings : List Booking) : Nat :=
  bookings.length

/-- Sum of the sizes of the per-status buckets. -/
def sumBucketSizes (bookings : List Booking) : Nat :=
  ((groupedBuckets bookings).map (fun g => g.2.length)).sum

/-! ### Status updates -/

/-- Write of a new status to a booking record. -/
def setStatus (b : Booking) (s : String) : Booking :=
  { b with status := s }

/-- Model of updateBookingStatus (page.jsx lines 734-749). The remote
write may fail (writeOk = false); the catch block only logs, so the
function always returns normally and never reports failure: the model
is a total function with no error outcome. -/
def updateBookingStatus (writeOk : Bool) (b : Booking) (newStatus : String) : Booking :=
  if writeOk then setStatus b newStatus else b

/-- Target statuses offered by the manual Update Repair Status select
(page.jsx line 1535): statusOrder minus New Request. -/
def manualToolStatuses : List String :=
  statusOrder.filter (fun s => s != "New Request")

/-- Saving the internal repair form stores the details and writes
repairData.finalStatus as the new status (page.jsx lines 1162-1171). -/
def handleUpdateRepair (b : Booking) (rd : RepairDetails) : Booking :=
  { b with repairDetails := some rd, status := rd.finalStatus }

/-! ### Booking creation (page.jsx lines 868-909 and 1032-1084) -/

/-- Walk-in check-in form fields. -/
structure CheckInForm where
  invoiceNo : String
  customerName : String
  customerPhone : String
  customerEmail : String
  deviceModel : String
  deviceIssue : String
  imei : String
deriving DecidableEq, Repr

/-- Online booking request form fields. -/
structure OnlineForm where
  customerName : String
  customerPhone : String
  deviceModel : String
  deviceIssue : String
  imei : String
deriving DecidableEq, Repr

/-- Walk-in check-in: validation rejects an empty name, phone or device
model (falsy strings); otherwise the new booking starts Confirmed. -/
def handleCheckIn (f : CheckInForm) : Option Booking :=
  if f.customerName = "" ∨ f.customerPhone = "" ∨ f.deviceModel = "" then
    none
  else
    some { invoiceNo := f.invoiceNo, customerName := f.customerName,
           customerPhone := f.customerPhone, deviceModel := f.deviceModel,
           deviceIssue := f.deviceIssue, imei := f.imei,
           status := "Confirmed", bookingType := "Walk-in",
           repairDetails := none }

/-- Online booking: same validation; the invoice number is generated
(REQ- plus a random number, passed in here); the booking starts as a
New Request. -/
def handleBooking (f : OnlineForm) (generatedInvoiceNo : String) : Option Booking :=
  if f.customerName = "" ∨ f.customerPhone = "" ∨ f.deviceModel = "" then
    none
  else
    some { invoiceNo := generatedInvoiceNo, customerName := f.customerName,
           customerPhone := f.customerPhone, deviceModel := f.deviceModel,
           deviceIssue := f.deviceIssue, imei := f.imei,
           status := "New Request", bookingType := "Online",
           repairDetails := none }

/-! ### Invoice line items and totals (page.jsx lines 350-375) -/

/-- One invoice line item: description, quantity, unit price and the
stored computed total (the code keeps a total field on each item). -/
structure InvoiceItem where
  description : String
  qty : ℚ
  unitPrice : ℚ
  total : ℚ
deriving DecidableEq, Repr

/-- Result of the invoice totals calculation. -/
structure Totals where
  subtotal : ℚ
  taxAmount : ℚ
  totalAmount : ℚ
deriving DecidableEq, Repr

/-- Model of calculateTotals (page.jsx lines 362-375): the subtotal is
reduced from qty times unitPrice (not from the stored total field). -/
def calculateTotals (currentItems : List InvoiceItem) (isVatExempt : Bool)
    (taxRate : ℚ) : Totals :=
  let newSubtotal := currentItems.foldl (fun sum item => sum + item.qty * item.unitPrice) 0
  let calculatedTax := if isVatExempt then 0 else newSubtotal * (taxRate / 100)
  let newTotal := newSubtotal + calculatedTax
  { subtotal := newSubtotal, taxAmount := calculatedTax, totalAmount := newTotal }

/-! ### Repair-to-invoice generation (page.jsx lines 1192-1280) -/

/-- Part cost lines of the generated invoice: parts with cost > 0 and a
non-empty (truthy) name, each as a qty-1 line priced at the part cost. -/
def partsCostItems (partsUsed : List Part) : List InvoiceItem :=
  (partsUsed.filter (fun p => decide (0 < p.cost) && (p.name != ""))).map
    (fun p => { description := "Part: " ++ p.name, qty := 1,
                unitPrice := p.cost, total := p.cost })

/-- Labor line of the generated invoice: the description uses the
confirmed final fault, falling back to the original device issue when
the final fault is the empty (falsy) string; priced at the labor cost. -/
def laborItem (rd : RepairDetails) (deviceIssue : String) : InvoiceItem :=
  { description := "Labor: " ++ (if rd.finalFault = "" then deviceIssue else rd.finalFault),
    qty := 1, unitPrice := rd.laborCost, total := rd.laborCost }

/-- The item list of the generated invoice: the labor line followed by
the part cost lines. -/
def invoiceItems (rd : RepairDetails) (deviceIssue : String) : List InvoiceItem :=
  laborItem rd deviceIssue :: partsCostItems rd.partsUsed

/-- Transcribed from the spec sentences for the repair-to-invoice item
list, for comparison with the source-derived invoiceItems: exactly one
labor line (description from the confirmed fault, or the original issue
when no final fault is set, priced at the labor cost), then, for each
recorded part in order, one line when its cost is positive and its name
non-empty and no line otherwise. -/
def invoiceItemsFromSpec (rd : RepairDetails) (deviceIssue : String) : List InvoiceItem :=
  { description := "Labor: " ++ (if rd.finalFault = "" then deviceIssue else rd.finalFault),
    qty := 1, unitPrice := rd.laborCost, total := rd.laborCost } ::
  rd.partsUsed.foldr
    (fun p rest =>
      if 0 < p.cost ∧ p.name ≠ "" then
        { description := "Part: " ++ p.name, qty := 1,
          unitPrice := p.cost, total := p.cost } :: rest
      else rest)
    []

/-- Tenant shop profile document (no tax-rate field exists on it). -/
structure ShopProfile where
  companyName : String
  address : String
  registrationNo : String
  vatNo : String
  emailPhone : String
  bankingDetails : String
  currency : String
  subscription_status : String
  subscription_start : String
deriving DecidableEq, Repr

/-- Invoice document as persisted by the generator. -/
structure Invoice where
  invoiceNo : String
  date : String
  customerName : String
  customerPhone : String
  billTo : String
  items : List InvoiceItem
  subtotal : ℚ
  taxRate : ℚ
  taxAmount : ℚ
  isVatExempt : Bool
  totalAmount : ℚ
  bankingDetails : String
  status : String
deriving DecidableEq, Repr

/-- Customer notification record produced by sendStatusNotification
(page.jsx lines 49-66): recipient phone, name, invoice number and the
status text placed in the message. -/
structure Notification where
  phone : String
  customerName : String
  invoiceNo : String
  statusText : String
deriving DecidableEq, Repr

/-- Everything the success path of handleGenerateInvoice produces: the
persisted invoice, the booking after its status write, and the
dispatched customer notification. -/
structure GenerateInvoiceResult where
  invoice : Invoice
  bookingAfter : Booking
  notification : Notification
deriving DecidableEq, Repr

/-- Model of the success path of handleGenerateInvoice (page.jsx lines
1192-1280): builds the item list, applies the hard-coded 15 percent tax
rate with the VAT-exempt flag false, persists the invoice with status
Sent, writes Collected to the booking, and dispatches a notification. -/
def handleGenerateInvoice (b : Booking) (rd : RepairDetails)
    (shop : ShopProfile) (today : String) : GenerateInvoiceResult :=
  let items := invoiceItems rd b.deviceIssue
  let subtotal := (items.map (fun item => item.total)).sum
  let taxRate : ℚ := 15
  let taxAmount := subtotal * (taxRate / 100)
  let totalAmount := subtotal + taxAmount
  { invoice :=
      { invoiceNo := "INV-REP-" ++ b.invoiceNo, date := today,
        customerName := b.customerName, customerPhone := b.customerPhone,
        billTo := b.deviceModel, items := items, subtotal := subtotal,
        taxRate := taxRate, taxAmount := taxAmount, isVatExempt := false,
        totalAmount := totalAmount, bankingDetails := shop.bankingDetails,
        status := "Sent" },
    bookingAfter := updateBookingStatus true b "Collected",
    notification :=
      { phone := b.customerPhone, customerName := b.customerName,
        invoiceNo := b.invoiceNo, statusText := "Collected (Invoice Sent)" } }

/-! ### Quotation / BER calculator (page.jsx lines 1715-1799) -/

/-- Fixed premium rate: 15 percent of the repair cost estimate. -/
def PREMIUM_RATE : ℚ := 15 / 100

/-- Flat deductible fee. -/
def DEDUCTIBLE_FLAT : ℚ := 250

/-- Premium derived from the repair cost estimate. -/
def calculatedPremium (repairCostEstimate : ℚ) : ℚ :=
  repairCostEstimate * PREMIUM_RATE

/-- Total customer cost: the customer only pays the flat deductible. -/
def totalCustomerCost : ℚ := DEDUCTIBLE_FLAT

/-- Quotation form state relevant to the calculation. -/
structure QuoteForm where
  deviceModel : String
  customerName : String
  faultDescription : String
  repairCostEstimate : ℚ
  isBER : Bool
deriving DecidableEq, Repr

/-- Fields of the quotation document persisted by handleSaveQuote that
the calculator determines. -/
structure SavedQuote where
  repairCostEstimate : ℚ
  isBER : Bool
  calculatedPremium : ℚ
  totalCustomerCost : ℚ
  status : String
deriving DecidableEq, Repr

/-- Model of handleSaveQuote (page.jsx lines 1756-1774): persists the
quote fields together with the computed premium, the flat customer
cost, and a status chosen by the BER flag. -/
def handleSaveQuote (q : QuoteForm) : SavedQuote :=
  { repairCostEstimate := q.repairCostEstimate, isBER := q.isBER,
    calculatedPremium := calculatedPremium q.repairCostEstimate,
    totalCustomerCost := totalCustomerCost,
    status := if q.isBER then "BER Report" else "Quote Draft" }

/-! ### Profile bootstrap (page.jsx lines 2132-2164) -/

/-- Default shop profile created when none exists yet. -/
def initialProfile (now : String) : ShopProfile :=
  { companyName := "Digital Cafe", address := "123 Main Street, Cape Town",
    registrationNo := "2023/123456/07", vatNo := "4012345678",
    emailPhone := "+27 82 555 1234",
    bankingDetails := "FNB, Account: 620XXXXXXX, Branch: 250655",
    currency := "ZAR", subscription_status := "active",
    subscription_start := now }

/-- Model of initializeProfile: reads the tenant profile document; when
it does not exist, writes and adopts the default profile (the Bool
records that a create happened); when it exists, adopts it unchanged. -/
def initializeProfile (existing : Option ShopProfile) (now : String) :
    ShopProfile × Bool :=
  match existing with
  | none => (initialProfile now, true)
  | some p => (p, false)

/-! ### Manual Update Repair Status tool (page.jsx lines 802-832) -/

/-- Outcome of the manual status tool. -/
inductive UpdateStatusToolResult where
  | missingInvoiceNo : UpdateStatusToolResult
  | notFound : UpdateStatusToolResult
  | updated : Booking → Notification → UpdateStatusToolResult
deriving DecidableEq, Repr

/-- Model of handleUpdateStatusTool: rejects an empty invoice number,
looks the booking up by exact invoice number, then performs the status
write and afterwards always dispatches the notification; the write is
done by updateBookingStatus, which swallows its own failure, so the
notification is dispatched whether or not the remote write succeeded. -/
def handleUpdateStatusTool (bookings : List Booking)
    (invoiceNo targetStatus : String) (writeOk : Bool) : UpdateStatusToolResult :=
  if invoiceNo = "" then
    .missingInvoiceNo
  else
    match bookings.find? (fun b => b.invoiceNo == invoiceNo) with
    | none => .notFound
    | some b =>
        .updated (updateBookingStatus writeOk b targetStatus)
          { phone := b.customerPhone, customerName := b.customerName,
            invoiceNo := b.invoiceNo, statusText := targetStatus }

/-- True exactly when the tool run dispatched a customer notification. -/
def notificationDispatched : UpdateStatusToolResult → Bool
  | .updated _ _ => true
  | _ => false

/-! ### Reachable bookings under the system operations -/

/-- Status-mutating operations on an existing booking, each with the
data the respective UI path supplies (writeOk models whether the remote
write succeeded; a failed write leaves the record unchanged). -/
inductive BookingOp where
  | manualStatusUpdate : String → Bool → BookingOp
  | repairFormUpdate : RepairDetails → Bool → BookingOp
  | generateInvoice : RepairDetails → ShopProfile → String → Bool → BookingOp
deriving Repr

/-- Effect of one operation on the booking record. -/
def applyOp (b : Booking) : BookingOp → Booking
  | .manualStatusUpdate target writeOk => updateBookingStatus writeOk b target
  | .repairFormUpdate rd writeOk => if writeOk then handleUpdateRepair b rd else b
  | .generateInvoice rd shop today writeOk =>
      if writeOk then (handleGenerateInvoice b rd shop today).bookingAfter else b

/-- Constraints the UI imposes on the data of each operation: the
manual tool select offers statusOrder minus New Request; the repair
form select offers statusOrder, and its default value is the current
booking status; invoice generation takes no status choice. -/
def OpValid (b : Booking) : BookingOp → Prop
  | .manualStatusUpdate target _ => target ∈ manualToolStatuses
  | .repairFormUpdate rd _ => rd.finalStatus ∈ statusOrder ∨ rd.finalStatus = b.status
  | .generateInvoice _ _ _ _ => True

/-- Bookings reachable through the system operations: created by the
walk-in check-in or the online booking flow, then mutated by any
sequence of valid operations. -/
inductive Reachable : Booking → Prop where
  | checkIn (f : CheckInForm) (b : Booking) :
      handleCheckIn f = some b → Reachable b
  | online (f : OnlineForm) (inv : String) (b : Booking) :
      handleBooking f inv = some b → Reachable b
  | step (b : Booking) (op : BookingOp) :
      Reachable b → OpValid b op → Reachable (applyOp b op)

/-- Sequence of manual status-tool writes applied to one booking: each
entry carries the selected target status and whether the remote write
succeeded. -/
def applyManualUpdates (b : Booking) (updates : List (String × Bool)) : Booking :=
  updates.foldl (fun cur u => updateBookingStatus u.2 cur u.1) b

/-! ### Concrete records used to instantiate theorems -/

/-- Sample walk-in check-in form. -/
def demoCheckInForm : CheckInForm :=
  { invoiceNo := "INV-1001", customerName := "Ann", customerPhone := "0825551234",
    customerEmail := "", deviceModel := "iPhone 12", deviceIssue := "Cracked screen",
    imei := "350000000000001" }

/-- The booking the sample walk-in check-in creates. -/
def demoWalkInBooking : Booking :=
  { invoiceNo := "INV-1001", customerName := "Ann", customerPhone := "0825551234",
    deviceModel := "iPhone 12", deviceIssue := "Cracked screen",
    imei := "350000000000001", status := "Confirmed", bookingType := "Walk-in",
    repairDetails := none }

/-- Sample online booking form. -/
def demoOnlineForm : OnlineForm :=
  { customerName := "Ben", customerPhone := "0731112222",
    deviceModel := "Galaxy S21", deviceIssue := "No charge", imei := "352222000000002" }

/-- The booking the sample online request creates. -/
def demoOnlineBooking : Booking :=
  { invoiceNo := "REQ-7", customerName := "Ben", customerPhone := "0731112222",
    deviceModel := "Galaxy S21", deviceIssue := "No charge",
    imei := "352222000000002", status := "New Request", bookingType := "Online",
    repairDetails := none }

/-- Booking whose stored status lies outside the closed status set (the
store is schemaless, so such a document is representable). -/
def strayBooking : Booking :=
  { invoiceNo := "INV-9", customerName := "Zed", customerPhone := "0710000000",
    deviceModel := "PSP", deviceIssue := "screen", imei := "",
    status := "Pending", bookingType := "Walk-in", repairDetails := none }

/-! ### Helper lemmas -/

/-- Folding the running subtotal equals the initial value plus the sum
of qty times unit price over the items. -/
lemma foldl_qty_price (items : List InvoiceItem) (a : ℚ) :
    items.foldl (fun sum item => sum + item.qty * item.unitPrice) a
      = a + (items.map (fun i => i.qty * i.unitPrice)).sum := by
  induction items generalizing a with
  | nil => simp
  | cons x xs ih => simp [ih]; ring

/-- The bucket-size sum, written as one map over statusOrder. -/
lemma sumBucketSizes_eq (bookings : List Booking) :
    sumBucketSizes bookings
      = (statusOrder.map
          (fun s => (bookings.filter (fun b => b.status == s)).length)).sum := by
  unfold sumBucketSizes groupedBuckets bucketFor
  rw [List.map_map]
  rfl

/-- Adding one booking in front adds its status count over the key list
to the bucket-size sum. -/
lemma filterLen_sum_cons (states : List String) (b : Booking) (rest : List Booking) :
    (states.map (fun s => ((b :: rest).filter (fun x => x.status == s)).length)).sum
      = states.count b.status
        + (states.map (fun s => (rest.filter (fun x => x.status == s)).length)).sum := by
  induction states with
  | nil => simp
  | cons s ss ih =>
      rw [List.map_cons, List.sum_cons, ih, List.count_cons, List.map_cons,
        List.sum_cons]
      by_cases hbs : b.status = s
      · subst hbs
        simp [List.filter_cons]
        omega
      · simp [List.filter_cons, hbs, Ne.symm hbs]
        omega

/-- Each member of the closed status set occurs in it exactly once. -/
lemma count_statusOrder_of_mem (s : String) (h : s ∈ statusOrder) :
    statusOrder.count s = 1 := by
  simp only [statusOrder, List.mem_cons, List.not_mem_nil, or_false] at h
  rcases h with rfl | rfl | rfl | rfl | rfl | rfl | rfl | rfl <;> decide

/-- The filter-and-map building the part lines agrees with the
one-line-per-qualifying-part fold. -/
lemma partsCostItems_eq_foldr (l : List Part) :
    partsCostItems l
      = l.foldr
          (fun p rest =>
            if 0 < p.cost ∧ p.name ≠ "" then
              { description := "Part: " ++ p.name, qty := 1,
                unitPrice := p.cost, total := p.cost } :: rest
            else rest)
          [] := by
  induction l with
  | nil => rfl
  | cons p ps ih =>
      rw [List.foldr_cons, ← ih]
      by_cases h1 : (0 : ℚ) < p.cost
      · by_cases h2 : p.name = ""
        · simp [partsCostItems, List.filter_cons, h1, h2]
        · simp [partsCostItems, List.filter_cons, h1, h2]
      · simp [partsCostItems, List.filter_cons, h1]

/-! ### Claim theorems -/

/-- C1 counterexample: a single booking whose stored status Pending is
outside the closed status set is counted by the synthetic Total Repairs
count but lands in no per-status bucket, so the grouping operation does
not satisfy the claimed equality on every list of bookings. -/
theorem c1_counterexample :
    ¬ (totalRepairsCount [strayBooking] = sumBucketSizes [strayBooking]) := by
  decide

/-- C1 amended: for every list of bookings in which each booking status
belongs to the closed status set, the synthetic Total Repairs count
produced by the grouping operation equals the sum of the sizes of the
eight per-status buckets. -/
theorem c1_total_eq_bucket_sum (bookings : List Booking) :
    (∀ b ∈ bookings, b.status ∈ statusOrder) →
    totalRepairsCount bookings = sumBucketSizes bookings := by
  induction bookings with
  | nil => intro _; decide
  | cons b rest ih =>
      intro h
      have hb : b.status ∈ statusOrder := h b (List.mem_cons_self b rest)
      have hrest : ∀ x ∈ rest, x.status ∈ statusOrder :=
        fun x hx => h x (List.mem_cons_of_mem b hx)
      have hr := ih hrest
      rw [sumBucketSizes_eq] at hr ⊢
      rw [filterLen_sum_cons, count_statusOrder_of_mem b.status hb]
      simp only [totalRepairsCount, List.length_cons] at hr ⊢
      omega

/-- C1 witness: the amended equality holds on a concrete two-booking
list whose statuses lie in the closed set. -/
theorem c1_total_eq_bucket_sum_witness :
    totalRepairsCount [demoWalkInBooking, demoOnlineBooking]
      = sumBucketSizes [demoWalkInBooking, demoOnlineBooking] :=
  c1_total_eq_bucket_sum [demoWalkInBooking, demoOnlineBooking] (by decide)

/-- C2: every booking reachable through the system operations (walk-in
check-in, online booking, manual status update, repair-form update,
invoice generation) carries a status that is a member of the closed
status set, and every operation preserves this; the data model gives
each booking exactly one status field. -/
theorem c2_reachable_status_closed (b : Booking) (h : Reachable b) :
    b.status ∈ statusOrder := by
  induction h with
  | checkIn f b hf =>
      unfold handleCheckIn at hf
      split at hf
      · exact absurd hf (by simp)
      · injection hf with hf
        subst hf
        exact show "Confirmed" ∈ statusOrder by decide
  | online f inv b hf =>
      unfold handleBooking at hf
      split at hf
      · exact absurd hf (by simp)
      · injection hf with hf
        subst hf
        exact show "New Request" ∈ statusOrder by decide
  | step b op hr hv ih =>
      cases op with
      | manualStatusUpdate target writeOk =>
          cases writeOk
          · simpa [applyOp, updateBookingStatus] using ih
          · have htgt : target ∈ statusOrder := List.mem_of_mem_filter hv
            simpa [applyOp, updateBookingStatus, setStatus] using htgt
      | repairFormUpdate rd writeOk =>
          cases writeOk
          · simpa [applyOp] using ih
          · rcases hv with hmem | heq
            · simpa [applyOp, handleUpdateRepair] using hmem
            · simp only [applyOp, handleUpdateRepair, if_true]
              simpa [heq] using ih
      | generateInvoice rd shop today writeOk =>
          cases writeOk
          · simpa [applyOp] using ih
          · exact show "Collected" ∈ statusOrder by decide

/-- C2 witness: a concrete reachable booking (created online, then
manually confirmed) has its status in the closed set. -/
theorem c2_reachable_status_closed_witness :
    (applyOp demoOnlineBooking (BookingOp.manualStatusUpdate "Confirmed" true)).status
      ∈ statusOrder :=
  c2_reachable_status_closed _
    (Reachable.step demoOnlineBooking (BookingOp.manualStatusUpdate "Confirmed" true)
      (Reachable.online demoOnlineForm "REQ-7" demoOnlineBooking (by decide))
      (show "Confirmed" ∈ manualToolStatuses by decide))

/-- C3: the invoice totals calculator returns subtotal equal to the sum
of qty times unit price over the items, tax equal to zero when
VAT-exempt and subtotal times taxRate over 100 otherwise, and total
equal to subtotal plus tax; on items qty 2 at unit price 100 with tax
rate 15 and not exempt it returns subtotal 200, tax 30, total 230. -/
theorem c3_calculate_totals_spec (items : List InvoiceItem) (isVatExempt : Bool)
    (taxRate : ℚ) :
    (calculateTotals items isVatExempt taxRate).subtotal
        = (items.map (fun i => i.qty * i.unitPrice)).sum
    ∧ (calculateTotals items isVatExempt taxRate).taxAmount
        = (if isVatExempt then 0
           else (calculateTotals items isVatExempt taxRate).subtotal * (taxRate / 100))
    ∧ (calculateTotals items isVatExempt taxRate).totalAmount
        = (calculateTotals items isVatExempt taxRate).subtotal
          + (calculateTotals items isVatExempt taxRate).taxAmount
    ∧ calculateTotals
        [{ description := "", qty := 2, unitPrice := 100, total := 200 }] false 15
        = { subtotal := 200, taxAmount := 30, totalAmount := 230 } := by
  refine ⟨?_, rfl, rfl, ?_⟩
  · simp [calculateTotals, foldl_qty_price]
  · simp only [calculateTotals, List.foldl_cons, List.foldl_nil, Totals.mk.injEq]
    norm_num

/-- C4: the generated invoice item list is exactly one labor line whose
description carries the confirmed final fault, or the original device
issue when no final fault is set, at the labor cost, followed by one
line per recorded part with positive cost and non-empty name; parts
with cost at most zero or an empty name produce no line (as transcribed
in invoiceItemsFromSpec). -/
theorem c4_invoice_items_match_spec (rd : RepairDetails) (deviceIssue : String) :
    invoiceItems rd deviceIssue = invoiceItemsFromSpec rd deviceIssue := by
  simp only [invoiceItems, invoiceItemsFromSpec, laborItem, List.cons.injEq,
    partsCostItems_eq_foldr]

/-- C5: for every job, repair details and tenant profile (the profile
carries no tax-rate field and the generator reads none), the generated
invoice applies the fixed 15 percent tax rate with the VAT-exempt flag
false and is persisted with status Sent, the job is transitioned to
Collected, and a customer notification is dispatched. -/
theorem c5_fixed_tax_and_collected (b : Booking) (rd : RepairDetails)
    (shop : ShopProfile) (today : String) :
    (handleGenerateInvoice b rd shop today).invoice.taxRate = 15
    ∧ (handleGenerateInvoice b rd shop today).invoice.isVatExempt = false
    ∧ (handleGenerateInvoice b rd shop today).invoice.status = "Sent"
    ∧ (handleGenerateInvoice b rd shop today).bookingAfter
        = { b with status := "Collected" }
    ∧ (handleGenerateInvoice b rd shop today).notification
        = { phone := b.customerPhone, customerName := b.customerName,
            invoiceNo := b.invoiceNo, statusText := "Collected (Invoice Sent)" } :=
  ⟨rfl, rfl, rfl, rfl, rfl⟩

/-- C6: for every repair cost estimate and every value of the BER flag,
the saved quotation carries premium equal to the estimate times 15
percent and a customer cost equal to the flat fee 250, independent of
the estimate and of the BER flag; estimate 1200 gives premium 180 and
customer cost 250. -/
theorem c6_quotation_premium_deductible (q : QuoteForm) :
    (handleSaveQuote q).calculatedPremium = q.repairCostEstimate * (15 / 100)
    ∧ (handleSaveQuote q).totalCustomerCost = 250
    ∧ calculatedPremium 1200 = 180
    ∧ totalCustomerCost = 250 := by
  refine ⟨rfl, rfl, ?_, rfl⟩
  norm_num [calculatedPremium, PREMIUM_RATE]

/-- C7: a walk-in check-in creates its booking with status Confirmed,
and an online request creates its booking with status New Request. -/
theorem c7_initial_status_by_origin (cf : CheckInForm) (onf : OnlineForm)
    (inv : String) (b1 b2 : Booking)
    (h1 : handleCheckIn cf = some b1) (h2 : handleBooking onf inv = some b2) :
    b1.status = "Confirmed" ∧ b2.status = "New Request" := by
  constructor
  · unfold handleCheckIn at h1
    split at h1
    · exact absurd h1 (by simp)
    · injection h1 with h1; subst h1; rfl
  · unfold handleBooking at h2
    split at h2
    · exact absurd h2 (by simp)
    · injection h2 with h2; subst h2; rfl

/-- C7 witness: the sample walk-in and online forms create bookings
with statuses Confirmed and New Request respectively. -/
theorem c7_initial_status_by_origin_witness :
    demoWalkInBooking.status = "Confirmed"
    ∧ demoOnlineBooking.status = "New Request" :=
  c7_initial_status_by_origin demoCheckInForm demoOnlineForm "REQ-7"
    demoWalkInBooking demoOnlineBooking (by decide) (by decide)

/-- C8: when no tenant profile exists, bootstrap creates a default
profile with subscription status active and currency ZAR; when a
profile exists, nothing is created and the existing profile is adopted
unchanged. -/
theorem c8_profile_bootstrap (now : String) (p : ShopProfile) :
    (initializeProfile none now).2 = true
    ∧ (initializeProfile none now).1.subscription_status = "active"
    ∧ (initializeProfile none now).1.currency = "ZAR"
    ∧ initializeProfile (some p) now = (p, false) :=
  ⟨rfl, rfl, rfl, rfl⟩

/-- C9: whenever the manual status tool is run with a non-empty invoice
number that matches a booking, the customer notification is dispatched
for every outcome of the remote status write, because the write
operation swallows its own failure and reports nothing to the caller. -/
theorem c9_notification_unconditional (bookings : List Booking)
    (invoiceNo targetStatus : String) (writeOk : Bool)
    (h1 : invoiceNo ≠ "")
    (h2 : (bookings.find? (fun b => b.invoiceNo == invoiceNo)).isSome = true) :
    notificationDispatched
      (handleUpdateStatusTool bookings invoiceNo targetStatus writeOk) = true := by
  unfold handleUpdateStatusTool
  rw [if_neg h1]
  cases hfind : bookings.find? (fun b => b.invoiceNo == invoiceNo) with
  | none => rw [hfind] at h2; simp at h2
  | some b => simp [notificationDispatched]

/-- C9 witness: with a matching booking present, the notification is
dispatched even when the remote status write fails. -/
theorem c9_notification_unconditional_witness :
    notificationDispatched
      (handleUpdateStatusTool [demoWalkInBooking] "INV-1001" "Collected" false)
      = true :=
  c9_notification_unconditional [demoWalkInBooking] "INV-1001" "Collected" false
    (by decide) (by decide)

/-- C10: the manual status tool offers exactly the closed status set
minus New Request, so it never writes New Request, and no sequence of
manual-tool updates (successful or failed writes) brings a job whose
status is not New Request back to New Request. -/
theorem c10_manual_tool_never_new_request :
    "New Request" ∉ manualToolStatuses
    ∧ manualToolStatuses
        = ["Confirmed", "In Progress", "Awaiting Parts", "Testing",
           "Ready for Collection", "Collected", "Unable To Repair"]
    ∧ ∀ (b : Booking) (updates : List (String × Bool)),
        (∀ u ∈ updates, u.1 ∈ manualToolStatuses) →
        b.status ≠ "New Request" →
        (applyManualUpdates b updates).status ≠ "New Request" := by
  refine ⟨by decide, by decide, ?_⟩
  intro b updates
  induction updates generalizing b with
  | nil => intro _ hb; exact hb
  | cons u rest ih =>
      intro hall hb
      have hu : u.1 ∈ manualToolStatuses := hall u (List.mem_cons_self u rest)
      have hrest : ∀ v ∈ rest, v.1 ∈ manualToolStatuses :=
        fun v hv => hall v (List.mem_cons_of_mem u hv)
      have hne : u.1 ≠ "New Request" := by
        have hp := (List.mem_filter.mp hu).2
        simpa using hp
      show (applyManualUpdates (updateBookingStatus u.2 b u.1) rest).status
          ≠ "New Request"
      apply ih (updateBookingStatus u.2 b u.1) hrest
      cases hok : u.2
      · simpa [updateBookingStatus] using hb
      · simpa [updateBookingStatus, setStatus] using hne

/-- C10 witness: a confirmed job put through one successful and one
failed manual update is not at New Request afterwards. -/
theorem c10_manual_tool_never_new_request_witness :
    (applyManualUpdates demoWalkInBooking
        [("In Progress", true), ("Collected", false)]).status ≠ "New Request" :=
  c10_manual_tool_never_new_request.2.2 demoWalkInBooking
    [("In Progress", true), ("Collected", false)] (by decide) (by decide)

end DigitalCafe
